import Mathlib

/-!
Verification of the dependency/environment validation engine
(`scripts/validate-dependencies.py`).

The Python script is shallowly embedded below.  External effects
(process execution, `shutil.which`, `psutil`, `shutil.disk_usage`,
socket probes, availability of the `packaging` library) are modelled as
explicit inputs; an uncaught Python exception is modelled as
`Except.error`.  All definitions follow the source line by line.
-/

namespace Defender360

/-- The `ValidationStatus` enum of the script (the emoji payloads of the
Python enum are irrelevant to every claim; `pyName` below models
`Enum.name`, which is what the report serializer uses). -/
inductive ValidationStatus
  | PASS
  | FAIL
  | WARNING
  | INFO
deriving DecidableEq, Repr

/-- Models `ValidationStatus.name` of the Python enum member. -/
def ValidationStatus.pyName : ValidationStatus → String
  | .PASS => "PASS"
  | .FAIL => "FAIL"
  | .WARNING => "WARNING"
  | .INFO => "INFO"

/-- The `ValidationResult` dataclass: one outcome of one check. -/
structure ValidationResult where
  name : String
  status : ValidationStatus
  message : String
  details : Option String := none
  required : Bool := true
deriving DecidableEq, Repr

/-- Outcome of one `subprocess.run` invocation, as seen by
`SystemValidator.run_command`: normal completion, a
`subprocess.TimeoutExpired`, or any other raised exception. -/
inductive CmdOutcome
  | completed (code : Int) (out err : String)
  | timedOut
  | raised (msg : String)
deriving Repr

/-- ASCII lower-casing of one character (Python `str.lower` restricted
to the ASCII names the script feeds it). -/
def lowerChar (c : Char) : Char :=
  if 'A' ≤ c && c ≤ 'Z' then Char.ofNat (c.toNat + 32) else c

/-- Python `str.lower()`. -/
def lowerStr (s : String) : String := ⟨s.data.map lowerChar⟩

/-- Python `str.strip()`: drop leading and trailing whitespace. -/
def stripStr (s : String) : String :=
  ⟨((s.data.dropWhile Char.isWhitespace).reverse.dropWhile Char.isWhitespace).reverse⟩

/-- Embeds `SystemValidator.run_command`: returns `(returncode, stdout.strip(),
stderr.strip())`, catching `TimeoutExpired` as `(1, "", "Command timed
out")` and any other exception as `(1, "", str(e))`. -/
def run_command : CmdOutcome → Int × String × String
  | .completed c o e => (c, stripStr o, stripStr e)
  | .timedOut => (1, "", "Command timed out")
  | .raised m => (1, "", m)

/-- Models `command.split()[0]`: the first whitespace-delimited token. -/
def firstWord (s : String) : String :=
  ⟨(s.data.dropWhile Char.isWhitespace).takeWhile (fun c => !c.isWhitespace)⟩

/-- Models `version_output[:100]`. -/
def take100 (s : String) : String := ⟨s.data.take 100⟩

/-- Match of the regex `(\d+\.\d+(?:\.\d+)?)` anchored at the start of
`cs` (greedy digit runs; the optional third component is taken when
present). -/
def matchDottedAt (cs : List Char) : Option (List Char) :=
  let d1 := cs.takeWhile Char.isDigit
  if d1.isEmpty then none else
    match cs.drop d1.length with
    | '.' :: r2 =>
      let d2 := r2.takeWhile Char.isDigit
      if d2.isEmpty then none else
        match r2.drop d2.length with
        | '.' :: r3 =>
          let d3 := r3.takeWhile Char.isDigit
          if d3.isEmpty then some (d1 ++ '.' :: d2)
          else some (d1 ++ '.' :: d2 ++ '.' :: d3)
        | _ => some (d1 ++ '.' :: d2)
    | _ => none

/-- Models `re.search(r'(\d+\.\d+(?:\.\d+)?)', s)`: leftmost match. -/
def searchDotted : List Char → Option (List Char)
  | [] => none
  | c :: rest =>
    match matchDottedAt (c :: rest) with
    | some m => some m
    | none => searchDotted rest

/-- The script's default version extraction (group 1 of the default
pattern applied to the combined output). -/
def extractDefault (s : String) : Option String :=
  (searchDotted s.data).map (fun cs => ⟨cs⟩)

/-- Numeric value of a digit string. -/
def natOfDigits (cs : List Char) : Nat :=
  cs.foldl (fun n c => 10 * n + (c.toNat - 48)) 0

/-- Split a character list at every dot (like Python `str.split('.')`). -/
def splitOnDot : List Char → List (List Char)
  | [] => [[]]
  | c :: rest =>
    if c = '.' then [] :: splitOnDot rest
    else
      match splitOnDot rest with
      | [] => [[c]]
      | h :: t => (c :: h) :: t

/-- Models `packaging.version.parse` restricted to plain release
versions (an optional leading `v`/`V` followed by dot-separated
non-empty digit groups), which covers every string the script ever
hands it; any other shape raises `InvalidVersion`, modelled as `none`
(and propagated as `Except.error` by `compareStage`). -/
def versionParse (s : String) : Option (List Nat) :=
  let cs :=
    match s.data with
    | 'v' :: rest => rest
    | 'V' :: rest => rest
    | cs => cs
  let comps := splitOnDot cs
  if comps.all (fun c => !c.isEmpty && c.all Char.isDigit) then
    some (comps.map natOfDigits)
  else none

/-- PEP 440 ordering on release segments: component-wise numeric
comparison, the shorter side padded with zeros. -/
def releaseLe : List Nat → List Nat → Bool
  | [], _ => true
  | a :: as, [] => if 0 < a then false else releaseLe as []
  | a :: as, b :: bs => if a < b then true else if b < a then false else releaseLe as bs

/-- Modelled from the spec: "component-wise numeric comparison,
missing trailing components treated as 0" — at every index whose
strict prefix agrees (components read with default 0 past the end),
the left component does not exceed the right one.  This is the
specification-side ordering `releaseLe` is compared against. -/
def ZeroPadLe (a b : List Nat) : Prop :=
  ∀ i, (∀ j, j < i → a.getD j 0 = b.getD j 0) → a.getD i 0 ≤ b.getD i 0

/-- Python string `<=` : lexicographic comparison by code point, a
proper prefix ordering before its extensions. -/
def lexCharLe : List Char → List Char → Bool
  | [], _ => true
  | _ :: _, [] => false
  | a :: as, b :: bs => if a < b then true else if b < a then false else lexCharLe as bs

/-- Lines 102–130 of `check_version`: the version comparison stage.
`packagingAvailable = false` models the `ImportError` branch (the
`from packaging import version` import failing), in which the script
falls back to plain Python string comparison. -/
def compareStage (tool currentVersion minVersion : String)
    (packagingAvailable : Bool) : Except String ValidationResult :=
  if packagingAvailable then
    match versionParse currentVersion, versionParse minVersion with
    | some cv, some mv =>
      if releaseLe mv cv then
        .ok { name := tool, status := .PASS,
              message := "Version " ++ currentVersion ++ " (>= " ++ minVersion ++ ")" }
      else
        .ok { name := tool, status := .FAIL,
              message := "Version " ++ currentVersion ++ " < " ++ minVersion }
    | _, _ => .error "InvalidVersion"
  else
    if lexCharLe minVersion.data currentVersion.data then
      .ok { name := tool, status := .PASS,
            message := "Version " ++ currentVersion ++ " (>= " ++ minVersion ++ ")" }
    else
      .ok { name := tool, status := .WARNING,
            message := "Version " ++ currentVersion ++ ", expected >= " ++ minVersion
                       ++ " (simple comparison)" }

/-- Embeds `SystemValidator.check_version`.  `onPath` models
`shutil.which(command.split()[0])`, `outcome` the behaviour of the
probed command, `pat` a caller-supplied `version_pattern` (modelled as
the function `s ↦ group 1 of re.search(pattern, s)`). -/
def check_version (onPath : Bool) (outcome : CmdOutcome) (packagingAvailable : Bool)
    (command minVersion : String) (pat : Option (String → Option String)) :
    Except String ValidationResult :=
  let tool := firstWord command
  if !onPath then
    .ok { name := tool, status := .FAIL, message := tool ++ " not found in PATH" }
  else
    let r := run_command outcome
    if r.1 ≠ 0 then
      .ok { name := tool, status := .FAIL, message := "Failed to get version: " ++ r.2.2 }
    else
      let versionOutput := r.2.1 ++ r.2.2
      match (match pat with
             | some p => p versionOutput
             | none => extractDefault versionOutput) with
      | none =>
        .ok { name := tool, status := .WARNING,
              message := "Could not parse version from: " ++ take100 versionOutput }
      | some currentVersion => compareStage tool currentVersion minVersion packagingAvailable

/-- Outcome of `socket.connect_ex` for one port (or a raised exception
while probing). -/
inductive PortProbe
  | connectResult (code : Int)
  | raised (msg : String)
deriving Repr

/-- The host environment a run observes: platform strings, the memory
query (`none` models `import psutil` failing), the disk query (`error`
models `shutil.disk_usage` raising), tool resolution, command
behaviour, availability of the `packaging` library, and port probes. -/
structure Env where
  sysName : String
  release : String
  machine : String
  memGb : Option ℚ
  diskGb : Except String ℚ
  which : String → Bool
  run : String → CmdOutcome
  packagingAvailable : Bool
  portProbe : Nat → PortProbe

/-- Floor division of a rational, as an integer. -/
def ratFloor (q : ℚ) : Int := Int.fdiv q.num q.den

/-- Models CPython string formatting `f"{x:.1f}"` on non-negative exact
values: round to the nearest tenth, ties to even, then print with one
decimal digit.  Computed on the numerator/denominator directly:
`fl = ⌊10q⌋` and the fractional part `10q - fl = rem/d` is compared
with `1/2` by cross-multiplying with the positive denominator. -/
def fmt1 (q : ℚ) : String :=
  let a : Int := q.num * 10
  let d : Int := (q.den : Int)
  let fl : Int := Int.fdiv a d
  let rem : Int := a - fl * d
  let n : Int :=
    if 2 * rem < d then fl
    else if d < 2 * rem then fl + 1
    else if fl % 2 = 0 then fl else fl + 1
  toString (Int.fdiv n 10) ++ "." ++ toString ((n % 10).natAbs)

/-- The Operating System entry of `check_system_requirements`. -/
def os_check (env : Env) : ValidationResult :=
  if ["windows", "darwin", "linux"].contains (lowerStr env.sysName) then
    { name := "Operating System", status := .PASS,
      message := env.sysName ++ " " ++ env.release }
  else
    { name := "Operating System", status := .WARNING,
      message := "Unsupported OS: " ++ env.sysName }

/-- The Architecture entry of `check_system_requirements`. -/
def arch_check (env : Env) : ValidationResult :=
  let architecture := lowerStr env.machine
  if ["x86_64", "amd64", "arm64", "aarch64"].contains architecture then
    { name := "Architecture", status := .PASS, message := architecture }
  else
    { name := "Architecture", status := .WARNING,
      message := "Untested architecture: " ++ architecture }

/-- The System Memory entry of `check_system_requirements`
(`psutil.virtual_memory().total / 1024**3` passed in as `memGb`;
`none` is the `ImportError` branch). -/
def memory_check (memGb : Option ℚ) : ValidationResult :=
  match memGb with
  | some gb =>
    if 16 ≤ gb then
      { name := "System Memory", status := .PASS,
        message := fmt1 gb ++ " GB (>= 16 GB)" }
    else if 8 ≤ gb then
      { name := "System Memory", status := .WARNING,
        message := fmt1 gb ++ " GB (minimum 16 GB recommended)" }
    else
      { name := "System Memory", status := .FAIL,
        message := fmt1 gb ++ " GB (< 8 GB minimum)" }
  | none =>
    { name := "System Memory", status := .INFO,
      message := "Could not check (psutil not available)", required := false }

/-- The Disk Space entry of `check_system_requirements`
(`shutil.disk_usage('.').free / 1024**3` passed in as `diskGb`;
`error e` is the exception branch). -/
def disk_check (diskGb : Except String ℚ) : ValidationResult :=
  match diskGb with
  | .ok gb =>
    if 100 ≤ gb then
      { name := "Disk Space", status := .PASS,
        message := fmt1 gb ++ " GB free (>= 100 GB)" }
    else if 50 ≤ gb then
      { name := "Disk Space", status := .WARNING,
        message := fmt1 gb ++ " GB free (minimum 100 GB recommended)" }
    else
      { name := "Disk Space", status := .FAIL,
        message := fmt1 gb ++ " GB free (< 50 GB minimum)" }
  | .error e =>
    { name := "Disk Space", status := .WARNING,
      message := "Could not check disk space: " ++ e, required := false }

/-- Embeds `SystemValidator.check_system_requirements`. -/
def check_system_requirements (env : Env) : List ValidationResult :=
  [os_check env, arch_check env, memory_check env.memGb, disk_check env.diskGb]

/-- Drop a literal character sequence from the front (`none` if it is
not a prefix). -/
def dropLit : List Char → List Char → Option (List Char)
  | [], cs => some cs
  | _ :: _, [] => none
  | p :: ps, c :: cs => if p = c then dropLit ps cs else none

/-- Python substring test `pat in text`. -/
def containsL (pat : List Char) : List Char → Bool
  | [] => (dropLit pat []).isSome
  | c :: rest => (dropLit pat (c :: rest)).isSome || containsL pat rest

def isAsciiAlpha (c : Char) : Bool :=
  ('A' ≤ c && c ≤ 'Z') || ('a' ≤ c && c ≤ 'z')

def isNumDot (c : Char) : Bool := c.isDigit || c = '.'

/-- The tail of the regex `Total Memory:\s*([0-9.]+)\s*([A-Za-z]+)`
applied right after the literal: skip whitespace, take a non-empty
`[0-9.]+` group, skip whitespace, take a non-empty `[A-Za-z]+` group. -/
def dockerMemAfter (cs : List Char) : Option (String × String) :=
  let ws1 := cs.dropWhile Char.isWhitespace
  let num := ws1.takeWhile isNumDot
  if num.isEmpty then none else
    let ws2 := (ws1.drop num.length).dropWhile Char.isWhitespace
    let unitChars := ws2.takeWhile isAsciiAlpha
    if unitChars.isEmpty then none else some (⟨num⟩, ⟨unitChars⟩)

/-- Models `re.search(r'Total Memory:\s*([0-9.]+)\s*([A-Za-z]+)', s)`:
leftmost occurrence of the literal whose tail also matches. -/
def dockerMemSearch : List Char → Option (String × String)
  | [] => none
  | c :: rest =>
    match dropLit "Total Memory:".data (c :: rest) with
    | some after =>
      match dockerMemAfter after with
      | some r => some r
      | none => dockerMemSearch rest
    | none => dockerMemSearch rest

/-- Python `float(s)` for strings drawn from `[0-9.]+`: at most one
dot and at least one digit, else `ValueError` (`none`). -/
def parseFloat (s : String) : Option ℚ :=
  let cs := s.data
  if cs.all isNumDot && cs.countP (fun c => c = '.') ≤ 1
      && !(cs.filter Char.isDigit).isEmpty then
    let ip := cs.takeWhile Char.isDigit
    let rest := cs.drop ip.length
    let fp := rest.drop 1
    some ((natOfDigits ip : ℚ) + (natOfDigits fp : ℚ) / (10 ^ fp.length))
  else none

/-- First character test (`str.startswith` with a single letter). -/
def headIs (s : String) (c : Char) : Bool :=
  match s.data with
  | [] => false
  | a :: _ => a = c

/-- The Docker Memory portion of `check_docker_configuration`: parses
`Total Memory:` out of `docker info` output.  No regex match appends
nothing; a `float` failure is caught and becomes the INFO result. -/
def docker_memory_results (stdout : String) : List ValidationResult :=
  if containsL "Total Memory:".data stdout.data then
    match dockerMemSearch stdout.data with
    | some (valStr, unitStr) =>
      match parseFloat valStr with
      | some value =>
        let ul := lowerStr unitStr
        let memoryGb : ℚ :=
          if headIs ul 'g' then value
          else if headIs ul 'm' then value / 1024
          else 0
        if 8 ≤ memoryGb then
          [{ name := "Docker Memory", status := .PASS,
             message := fmt1 memoryGb ++ " GB allocated (>= 8 GB)" }]
        else
          [{ name := "Docker Memory", status := .WARNING,
             message := fmt1 memoryGb ++ " GB allocated (< 8 GB recommended)" }]
      | none =>
        [{ name := "Docker Memory", status := .INFO,
           message := "Could not parse memory allocation", required := false }]
    | none => []
  else []

/-- Embeds `SystemValidator.check_docker_configuration`. -/
def check_docker_configuration (env : Env) : List ValidationResult :=
  let r := run_command (env.run "docker info")
  if r.1 = 0 then
    { name := "Docker Daemon", status := .PASS, message := "Running" }
      :: docker_memory_results r.2.1
  else
    [{ name := "Docker Daemon", status := .FAIL,
       message := "Not running: " ++ r.2.2 }]

/-- One port entry of `check_network_ports`. -/
def port_check (port : Nat) (p : PortProbe) : ValidationResult :=
  match p with
  | .connectResult code =>
    if code = 0 then
      { name := "Port " ++ toString port, status := .WARNING,
        message := "In use (may conflict)", required := false }
    else
      { name := "Port " ++ toString port, status := .PASS,
        message := "Available", required := false }
  | .raised e =>
    { name := "Port " ++ toString port, status := .INFO,
      message := "Could not check: " ++ e, required := false }

def required_ports : List Nat := [8000, 8080, 5432, 6379, 9092, 9200]

/-- Embeds `SystemValidator.check_network_ports`. -/
def check_network_ports (env : Env) : List ValidationResult :=
  required_ports.map (fun port => port_check port (env.portProbe port))

/-- Models group 1 of `re.search(r'version "(\d+)', s)`: leftmost occurrence of
the literal followed by at least one digit. -/
def javaPatternAux : List Char → Option String
  | [] => none
  | c :: rest =>
    match dropLit "version \"".data (c :: rest) with
    | some after =>
      let ds := after.takeWhile Char.isDigit
      if ds.isEmpty then javaPatternAux rest else some ⟨ds⟩
    | none => javaPatternAux rest

def javaPattern (s : String) : Option String := javaPatternAux s.data

/-- The call pattern of `check_version` through the environment (`shutil.which`
on the first token, `run_command` on the full command string). -/
def check_version_env (env : Env) (command minVersion : String)
    (pat : Option (String → Option String)) : Except String ValidationResult :=
  check_version (env.which (firstWord command)) (env.run command)
    env.packagingAvailable command minVersion pat

/-- Embeds `SystemValidator.check_core_tools`. -/
def check_core_tools (env : Env) : Except String (List ValidationResult) := do
  let git ← check_version_env env "git --version" "2.40" none
  let docker ← check_version_env env "docker --version" "24.0" none
  let dc1 ← check_version_env env "docker compose version" "2.20" none
  let dc ←
    if dc1.status = ValidationStatus.FAIL then
      check_version_env env "docker-compose --version" "2.20" none
    else pure dc1
  pure [git, docker, dc]

/-- Embeds `SystemValidator.check_programming_languages`. -/
def check_programming_languages (env : Env) : Except String (List ValidationResult) := do
  let py3 ← check_version_env env "python3 --version" "3.12" none
  let py ← check_version_env env "python --version" "3.12" none
  let aliasResults : List ValidationResult :=
    if py.status = ValidationStatus.PASS then
      [{ name := "python (alias)", status := ValidationStatus.PASS,
         message := py.message, required := false }]
    else []
  let java ← check_version_env env "java -version" "21" (some javaPattern)
  let node ← check_version_env env "node --version" "18.0" none
  pure ([py3] ++ aliasResults ++ [java, node])

/-- Embeds `SystemValidator.check_package_managers`. -/
def check_package_managers (env : Env) : Except String (List ValidationResult) := do
  let poetry ← check_version_env env "poetry --version" "1.7" none
  let mvn ← check_version_env env "mvn --version" "3.9" none
  let npm ← check_version_env env "npm --version" "9.0" none
  pure [poetry, mvn, npm]

/-- Embeds `SystemValidator.check_ide_tools`: the VS Code result with
`required` forced to `False` afterwards. -/
def check_ide_tools (env : Env) : Except String (List ValidationResult) := do
  let r ← check_version_env env "code --version" "1.80" none
  pure [{ r with required := false }]

/-- Embeds `SystemValidator.run_all_checks`: the categories in construction
order; an uncaught exception in any check aborts the whole run
(`Except.error`), since the run loop has no handler of its own. -/
def run_all_checks (env : Env) : Except String (List (String × List ValidationResult)) := do
  let sysReq := check_system_requirements env
  let core ← check_core_tools env
  let langs ← check_programming_languages env
  let pkgs ← check_package_managers env
  let dockerCfg := check_docker_configuration env
  let ports := check_network_ports env
  let ide ← check_ide_tools env
  pure [("System Requirements", sysReq),
        ("Core Tools", core),
        ("Programming Languages", langs),
        ("Package Managers", pkgs),
        ("Docker Configuration", dockerCfg),
        ("Network Ports", ports),
        ("IDE Tools", ide)]

/-- Models `self.results`: the category results flattened in order. -/
def allResults (checks : List (String × List ValidationResult)) : List ValidationResult :=
  (checks.map Prod.snd).flatten

/-- Models `len([r for r in self.results if r.required])`. -/
def required_total (rs : List ValidationResult) : Nat :=
  rs.countP (fun r => r.required)

def required_passed (rs : List ValidationResult) : Nat :=
  rs.countP (fun r => r.required && r.status == ValidationStatus.PASS)

def required_failed (rs : List ValidationResult) : Nat :=
  rs.countP (fun r => r.required && r.status == ValidationStatus.FAIL)

def required_warnings (rs : List ValidationResult) : Nat :=
  rs.countP (fun r => r.required && r.status == ValidationStatus.WARNING)

/-- Return value of `SystemValidator.print_results`: `False` exactly
when some required check FAILed, `True` otherwise (warnings included). -/
def print_results_ok (rs : List ValidationResult) : Bool :=
  if 0 < required_failed rs then false
  else if 0 < required_warnings rs then true
  else true

/-- Models `sys.exit(0 if success else 1)` in `main`. -/
def exit_code (rs : List ValidationResult) : Nat :=
  if print_results_ok rs then 0 else 1

/-- Exit code of a whole run: a run whose check battery raises
uncaught lands in `main`'s `except Exception` handler and exits 1. -/
def main_exit (env : Env) : Nat :=
  match run_all_checks env with
  | .ok checks => exit_code (allResults checks)
  | .error _ => 1

/-- The JSON values `generate_report` can emit. -/
inductive Json
  | str (s : String)
  | bool (b : Bool)
  | null
  | arr (xs : List Json)
  | obj (fields : List (String × Json))

/-- The `details` field is `None` or a string. -/
def optStr : Option String → Json
  | some s => .str s
  | none => .null

/-- One entry of the report's `results` array. -/
def resultJson (r : ValidationResult) : Json :=
  .obj [("name", .str r.name), ("status", .str r.status.pyName),
        ("message", .str r.message), ("details", optStr r.details),
        ("required", .bool r.required)]

/-- Embeds `SystemValidator.generate_report`: the dict serialized to the
output file (`timestamp` from `date -Iseconds`, platform strings and
`platform.python_version()` passed in). -/
def generate_report (timestamp osName release machine pythonVersion : String)
    (results : List ValidationResult) : Json :=
  .obj [("timestamp", .str timestamp),
        ("system", .obj [("os", .str osName), ("release", .str release),
                         ("architecture", .str machine),
                         ("python_version", .str pythonVersion)]),
        ("results", .arr (results.map resultJson))]

/-- Key list of a JSON object. -/
def objKeys : Json → List String
  | .obj fields => fields.map Prod.fst
  | _ => []

/-- Value stored under a key of a JSON object. -/
def objGet : Json → String → Option Json
  | .obj fields, k => (fields.find? (fun f => f.1 == k)).map Prod.snd
  | _, _ => none

/-! ### Sample environments -/

/-- A benign host: supported platform, ample resources, every tool on
the path answering `version 2.99`, `packaging` unavailable, all ports
free. -/
def envBase : Env where
  sysName := "Linux"
  release := "6.8.0"
  machine := "x86_64"
  memGb := some 32
  diskGb := .ok 200
  which := fun _ => true
  run := fun _ => .completed 0 "version 2.99" ""
  packagingAvailable := false
  portProbe := fun _ => .connectResult 1

/-- Variant of `envBase` with no executable resolvable on the path. -/
def envNoCode : Env := { envBase with which := fun _ => false }

/-- Variant of `envBase` with every external command timing out. -/
def envTimeout : Env := { envBase with run := fun _ => .timedOut }

/-- Variant of `envBase` without `psutil` (the memory probe unavailable). -/
def envNoPsutil : Env := { envBase with memGb := none }

/-- The category/result list `run_all_checks` computes on
`envNoPsutil`, written out for use as a concrete run. -/
def envNoPsutilChecks : List (String × List ValidationResult) :=
  [("System Requirements",
    [{ name := "Operating System", status := .PASS, message := "Linux 6.8.0" },
     { name := "Architecture", status := .PASS, message := "x86_64" },
     { name := "System Memory", status := .INFO,
       message := "Could not check (psutil not available)", required := false },
     { name := "Disk Space", status := .PASS,
       message := "200.0 GB free (>= 100 GB)" }]),
   ("Core Tools",
    [{ name := "git", status := .PASS, message := "Version 2.99 (>= 2.40)" },
     { name := "docker", status := .WARNING,
       message := "Version 2.99, expected >= 24.0 (simple comparison)" },
     { name := "docker", status := .PASS, message := "Version 2.99 (>= 2.20)" }]),
   ("Programming Languages",
    [{ name := "python3", status := .WARNING,
       message := "Version 2.99, expected >= 3.12 (simple comparison)" },
     { name := "java", status := .WARNING,
       message := "Could not parse version from: version 2.99" },
     { name := "node", status := .PASS, message := "Version 2.99 (>= 18.0)" }]),
   ("Package Managers",
    [{ name := "poetry", status := .PASS, message := "Version 2.99 (>= 1.7)" },
     { name := "mvn", status := .WARNING,
       message := "Version 2.99, expected >= 3.9 (simple comparison)" },
     { name := "npm", status := .WARNING,
       message := "Version 2.99, expected >= 9.0 (simple comparison)" }]),
   ("Docker Configuration",
    [{ name := "Docker Daemon", status := .PASS, message := "Running" }]),
   ("Network Ports",
    [{ name := "Port 8000", status := .PASS, message := "Available", required := false },
     { name := "Port 8080", status := .PASS, message := "Available", required := false },
     { name := "Port 5432", status := .PASS, message := "Available", required := false },
     { name := "Port 6379", status := .PASS, message := "Available", required := false },
     { name := "Port 9092", status := .PASS, message := "Available", required := false },
     { name := "Port 9200", status := .PASS, message := "Available", required := false }]),
   ("IDE Tools",
    [{ name := "code", status := .PASS, message := "Version 2.99 (>= 1.80)",
       required := false }])]

/-! ### Helper lemmas -/

theorem exit_code_eq (rs : List ValidationResult) :
    exit_code rs = if 0 < required_failed rs then 1 else 0 := by
  unfold exit_code print_results_ok
  by_cases h : 0 < required_failed rs <;> simp [h]

theorem required_failed_pos_iff (rs : List ValidationResult) :
    0 < required_failed rs ↔
      ∃ r ∈ rs, r.required = true ∧ r.status = ValidationStatus.FAIL := by
  unfold required_failed
  rw [List.countP_pos_iff]
  constructor
  · rintro ⟨r, hr, hp⟩
    exact ⟨r, hr, by simpa using hp⟩
  · rintro ⟨r, hr, h1, h2⟩
    exact ⟨r, hr, by simp [h1, h2]⟩

theorem required_failed_filter (rs : List ValidationResult) :
    required_failed (rs.filter (fun r => r.required)) = required_failed rs := by
  unfold required_failed
  rw [List.countP_filter]
  apply List.countP_congr
  intro r _
  cases hreq : r.required <;> simp [hreq]

theorem zeroPadLe_congr {a a' b b' : List Nat}
    (ha : ∀ i, a.getD i 0 = a'.getD i 0) (hb : ∀ i, b.getD i 0 = b'.getD i 0) :
    ZeroPadLe a b ↔ ZeroPadLe a' b' := by
  constructor
  · intro H i hp
    have h := H i (fun j hj => by rw [ha j, hb j]; exact hp j hj)
    rwa [ha i, hb i] at h
  · intro H i hp
    have h := H i (fun j hj => by rw [← ha j, ← hb j]; exact hp j hj)
    rwa [← ha i, ← hb i] at h

theorem zeroPadLe_cons (c : Nat) (as bs : List Nat) :
    ZeroPadLe (c :: as) (c :: bs) ↔ ZeroPadLe as bs := by
  constructor
  · intro H i hp
    have hpre : ∀ j, j < i + 1 → (c :: as).getD j 0 = (c :: bs).getD j 0 := by
      intro j hj
      cases j with
      | zero => simp
      | succ k => simpa using hp k (Nat.lt_of_succ_lt_succ hj)
    simpa using H (i + 1) hpre
  · intro H i hp
    cases i with
    | zero => simp
    | succ k =>
      have h := H k (fun j hj => by simpa using hp (j + 1) (Nat.succ_lt_succ hj))
      simpa using h

/-- The executable comparator agrees with the specification's
component-wise zero-padded numeric ordering. -/
theorem releaseLe_iff_zeroPadLe (a b : List Nat) :
    releaseLe a b = true ↔ ZeroPadLe a b := by
  induction a generalizing b with
  | nil =>
    simp only [releaseLe, true_iff]
    intro i _
    simp [List.getD_nil]
  | cons x as ih =>
    cases b with
    | nil =>
      by_cases hx : 0 < x
      · simp only [releaseLe, if_pos hx, Bool.false_eq_true, false_iff]
        intro H
        have h := H 0 (fun j hj => absurd hj (Nat.not_lt_zero j))
        simp [List.getD_nil] at h
        omega
      · have hx0 : x = 0 := by omega
        subst hx0
        simp only [releaseLe, if_neg hx]
        rw [ih []]
        have hnil : ∀ i : Nat, ([] : List Nat).getD i 0 = [0].getD i 0 := by
          intro i
          cases i <;> simp
        have e1 : ZeroPadLe (0 :: as) [] ↔ ZeroPadLe (0 :: as) [0] :=
          zeroPadLe_congr (fun i => rfl) hnil
        rw [e1, zeroPadLe_cons]
    | cons y bs =>
      rcases Nat.lt_trichotomy x y with hxy | hxy | hxy
      · simp only [releaseLe, if_pos hxy, true_iff]
        intro i hp
        cases i with
        | zero => simpa using Nat.le_of_lt hxy
        | succ k =>
          have h0 := hp 0 (Nat.succ_pos k)
          simp at h0
          omega
      · subst hxy
        have hstep : releaseLe (x :: as) (x :: bs) = releaseLe as bs := by
          simp [releaseLe]
        rw [hstep, ih bs]
        exact (zeroPadLe_cons x as bs).symm
      · have hnxy : ¬ x < y := by omega
        simp only [releaseLe, if_neg hnxy, if_pos hxy, Bool.false_eq_true, false_iff]
        intro H
        have h := H 0 (fun j hj => absurd hj (Nat.not_lt_zero j))
        simp at h
        omega

/-! ### C3 -/

/-- C3 counterexample: on the pure dotted-numeric pair
(`"2.9"`, `"2.10"`) the lexicographic fallback is used whenever the
`packaging` library is unavailable, and settles the comparison with
the opposite answer of the component-wise numeric order: the fallback
reports PASS (`"2.9" >= "2.10"` as strings) while the semantic
comparator reports FAIL (2.9 < 2.10 numerically). -/
theorem C3_counterexample :
    compareStage "git" "2.9" "2.10" false =
      Except.ok { name := "git", status := .PASS,
                  message := "Version 2.9 (>= 2.10)", details := none, required := true } ∧
    versionParse "2.9" = some [2, 9] ∧
    versionParse "2.10" = some [2, 10] ∧
    releaseLe [2, 10] [2, 9] = false ∧
    compareStage "git" "2.9" "2.10" true =
      Except.ok { name := "git", status := .FAIL,
                  message := "Version 2.9 < 2.10", details := none, required := true } := by
  refine ⟨rfl, rfl, rfl, rfl, rfl⟩

/-- C3 amended: when the semantic comparator is available, the
comparison used by `check_version` orders version strings by
component-wise numeric comparison with missing trailing components
treated as 0 (so `"2.9"` compares less than `"2.10"`); but the
lexicographic fallback is selected by unavailability of the
`packaging` library, not by the shape of the inputs, and therefore
also applies to pure dotted-numeric inputs. -/
theorem C3_semantic_numeric_order (tool cur minV : String) (cv mv : List Nat)
    (hc : versionParse cur = some cv) (hm : versionParse minV = some mv) :
    ∃ r, compareStage tool cur minV true = Except.ok r ∧
      (r.status = .PASS ↔ ZeroPadLe mv cv) ∧
      (r.status = .FAIL ↔ ¬ ZeroPadLe mv cv) := by
  have hiff := releaseLe_iff_zeroPadLe mv cv
  unfold compareStage
  rw [hc, hm]
  dsimp only
  cases hrel : releaseLe mv cv with
  | true =>
    rw [hrel] at hiff
    refine ⟨_, rfl, ?_, ?_⟩ <;> simp_all
  | false =>
    rw [hrel] at hiff
    refine ⟨_, rfl, ?_, ?_⟩ <;> simp_all

theorem C3_witness :
    ∃ r, compareStage "git" "2.9" "2.10" true = Except.ok r ∧
      (r.status = ValidationStatus.PASS ↔ ZeroPadLe [2, 10] [2, 9]) ∧
      (r.status = ValidationStatus.FAIL ↔ ¬ ZeroPadLe [2, 10] [2, 9]) :=
  C3_semantic_numeric_order "git" "2.9" "2.10" [2, 9] [2, 10] rfl rfl

/-! ### C2 -/

/-- C2 counterexample: the lexicographic fallback settles current
version `"v3"` against minimum `"2.9"` as a plain PASS, not as a
WARNING: `check_version` (tool on path, probe succeeded, custom
pattern extracting `"v3"`, `packaging` unavailable) returns PASS. -/
theorem C2_counterexample :
    check_version true (.completed 0 "openjdk v3" "") false "tool --version" "2.9"
        (some (fun _ => some "v3")) =
      Except.ok { name := "tool", status := .PASS, message := "Version v3 (>= 2.9)",
                  details := none, required := true } ∧
    compareStage "tool" "v3" "2.9" false =
      Except.ok { name := "tool", status := .PASS, message := "Version v3 (>= 2.9)",
                  details := none, required := true } ∧
    ValidationStatus.PASS ≠ ValidationStatus.WARNING := by
  refine ⟨rfl, rfl, by decide⟩

/-- C2 amended: under the lexicographic fallback (semantic comparison
unavailable), a current version at or above the minimum in string
order yields a plain PASS — it is the *below-minimum* outcome that is
downgraded (to WARNING instead of FAIL); the fallback never yields
FAIL.  In particular `"v3"` against `"2.9"` yields PASS. -/
theorem C2_fallback_statuses :
    (∀ tool cur minV : String,
      ∃ r, compareStage tool cur minV false = Except.ok r ∧
        (r.status = .PASS ↔ lexCharLe minV.data cur.data = true) ∧
        (r.status = .WARNING ↔ lexCharLe minV.data cur.data = false) ∧
        r.status ≠ .FAIL) ∧
    compareStage "code" "v3" "2.9" false =
      Except.ok { name := "code", status := .PASS,
                  message := "Version v3 (>= 2.9)", details := none,
                  required := true } := by
  constructor
  · intro tool cur minV
    unfold compareStage
    cases h : lexCharLe minV.data cur.data <;> simp [h]
  · rfl

/-! ### C4 -/

/-- C4 counterexample: with the `code` executable absent, the optional
VS Code check returns status FAIL (with `required = false`), not INFO
as the claim states. -/
theorem C4_counterexample :
    check_ide_tools envNoCode =
      Except.ok [{ name := "code", status := .FAIL,
                   message := "code not found in PATH", details := none,
                   required := false }] ∧
    ValidationStatus.FAIL ≠ ValidationStatus.INFO := by
  refine ⟨rfl, by decide⟩

/-- C4 amended: a check whose tool is absent from the resolution path
short-circuits without consulting the probe outcome (the result is the
same for every `outcome`) and always carries status FAIL; the optional
VS Code check merely flips `required` to false afterwards, keeping the
FAIL status (which, being non-required, cannot affect the overall
outcome). -/
theorem C4_tool_absent (outcome : CmdOutcome) (pa : Bool) (cmd minV : String)
    (pat : Option (String → Option String)) :
    check_version false outcome pa cmd minV pat =
      Except.ok { name := firstWord cmd, status := .FAIL,
                  message := firstWord cmd ++ " not found in PATH",
                  details := none, required := true } ∧
    (∀ env : Env, env.which "code" = false →
      check_ide_tools env =
        Except.ok [{ name := "code", status := .FAIL,
                     message := "code not found in PATH", details := none,
                     required := false }]) := by
  constructor
  · rfl
  · intro env h
    unfold check_ide_tools check_version_env
    rw [show firstWord "code --version" = "code" from rfl, h]
    rfl

theorem C4_witness :
    check_version false CmdOutcome.timedOut true "code --version" "1.80" none =
      Except.ok { name := firstWord "code --version", status := .FAIL,
                  message := firstWord "code --version" ++ " not found in PATH",
                  details := none, required := true } ∧
    check_ide_tools envNoCode =
      Except.ok [{ name := "code", status := .FAIL,
                   message := "code not found in PATH", details := none,
                   required := false }] :=
  ⟨(C4_tool_absent CmdOutcome.timedOut true "code --version" "1.80" none).1,
   (C4_tool_absent CmdOutcome.timedOut true "code --version" "1.80" none).2 envNoCode rfl⟩

/-! ### C5 -/

/-- C5 counterexample: with the probe timing out, the optional VS Code
check returns status FAIL (with `required = false`), not WARNING as
the claim states. -/
theorem C5_counterexample :
    check_ide_tools envTimeout =
      Except.ok [{ name := "code", status := .FAIL,
                   message := "Failed to get version: Command timed out",
                   details := none, required := false }] ∧
    ValidationStatus.FAIL ≠ ValidationStatus.WARNING := by
  refine ⟨rfl, by decide⟩

/-- C5 amended: a command exceeding the timeout bound is reported as
the synthetic triple `(1, "", "Command timed out")` rather than
hanging, and the affected check returns status FAIL regardless of the
required flag; the optional VS Code check merely flips `required` to
false afterwards, keeping the FAIL status. -/
theorem C5_timeout (pa : Bool) (cmd minV : String)
    (pat : Option (String → Option String)) :
    run_command CmdOutcome.timedOut = (1, "", "Command timed out") ∧
    check_version true CmdOutcome.timedOut pa cmd minV pat =
      Except.ok { name := firstWord cmd, status := .FAIL,
                  message := "Failed to get version: Command timed out",
                  details := none, required := true } ∧
    (∀ env : Env, env.which "code" = true →
      env.run "code --version" = CmdOutcome.timedOut →
      check_ide_tools env =
        Except.ok [{ name := "code", status := .FAIL,
                     message := "Failed to get version: Command timed out",
                     details := none, required := false }]) := by
  refine ⟨rfl, rfl, ?_⟩
  intro env hw hr
  unfold check_ide_tools check_version_env
  rw [show firstWord "code --version" = "code" from rfl, hw, hr]
  rfl

theorem C5_witness :
    run_command CmdOutcome.timedOut = (1, "", "Command timed out") ∧
    check_version true CmdOutcome.timedOut true "code --version" "1.80" none =
      Except.ok { name := firstWord "code --version", status := .FAIL,
                  message := "Failed to get version: Command timed out",
                  details := none, required := true } ∧
    check_ide_tools envTimeout =
      Except.ok [{ name := "code", status := .FAIL,
                   message := "Failed to get version: Command timed out",
                   details := none, required := false }] :=
  ⟨(C5_timeout true "code --version" "1.80" none).1,
   (C5_timeout true "code --version" "1.80" none).2.1,
   (C5_timeout true "code --version" "1.80" none).2.2 envTimeout rfl rfl⟩

/-! ### C6 -/

/-- C6 counterexample: the serialized system object carries the key
`python_version`, not `runtime_version` as the claim fixes it. -/
theorem C6_counterexample :
    ∃ sys,
      objGet (generate_report "2024-01-01T00:00:00" "Linux" "6.8.0" "x86_64" "3.12.3" [])
          "system" = some sys ∧
      "python_version" ∈ objKeys sys ∧ "runtime_version" ∉ objKeys sys := by
  refine ⟨_, rfl, by decide, by decide⟩

/-- C6 amended: for every run the report object has exactly the keys
`timestamp`, `system`, `results`; the system object exactly
`os`, `release`, `architecture`, `python_version` (the validator's own
runtime version — not `runtime_version`); and each results entry
exactly `name`, `status`, `message`, `details`, `required`; written to
the caller-supplied path, overwriting any existing file. -/
theorem C6_report_schema (timestamp osName release machine pyVer : String)
    (results : List ValidationResult) :
    objKeys (generate_report timestamp osName release machine pyVer results) =
      ["timestamp", "system", "results"] ∧
    (∃ sys,
      objGet (generate_report timestamp osName release machine pyVer results)
          "system" = some sys ∧
      objKeys sys = ["os", "release", "architecture", "python_version"] ∧
      "runtime_version" ∉ objKeys sys) ∧
    objGet (generate_report timestamp osName release machine pyVer results)
        "results" = some (.arr (results.map resultJson)) ∧
    (∀ r : ValidationResult,
      objKeys (resultJson r) = ["name", "status", "message", "details", "required"]) := by
  refine ⟨rfl, ⟨_, rfl, rfl, ?_⟩, rfl, fun r => rfl⟩
  show "runtime_version" ∉ ["os", "release", "architecture", "python_version"]
  decide

/-! ### C8 -/

/-- C8: a port probe whose `connect_ex` fails (port closed / free)
yields PASS, and a probe that connects (port in use) yields WARNING
with `required = false`. -/
theorem C8_port_polarity (port : Nat) (code : Int) (h : code ≠ 0) :
    port_check port (.connectResult code) =
      { name := "Port " ++ toString port, status := .PASS,
        message := "Available", details := none, required := false } ∧
    port_check port (.connectResult 0) =
      { name := "Port " ++ toString port, status := .WARNING,
        message := "In use (may conflict)", details := none, required := false } := by
  unfold port_check
  simp [h]

theorem C8_witness :
    port_check 9092 (.connectResult 111) =
      { name := "Port " ++ toString 9092, status := .PASS,
        message := "Available", details := none, required := false } ∧
    port_check 9092 (.connectResult 0) =
      { name := "Port " ++ toString 9092, status := .WARNING,
        message := "In use (may conflict)", details := none, required := false } :=
  C8_port_polarity 9092 111 (by decide)

/-! ### C9 -/

/-- C9: the memory and disk checks follow the three-tier threshold
pattern (PASS at or above the recommended floor, WARNING at or above
the hard minimum, FAIL below it), and a disk query of 40 GB yields
FAIL with message `"40.0 GB free (< 50 GB minimum)"`, which contains
both `"40.0 GB"` and `"< 50 GB"`. -/
theorem C9_resource_tiers (gb : ℚ) :
    ((memory_check (some gb)).status = .PASS ↔ 16 ≤ gb) ∧
    ((memory_check (some gb)).status = .WARNING ↔ 8 ≤ gb ∧ gb < 16) ∧
    ((memory_check (some gb)).status = .FAIL ↔ gb < 8) ∧
    ((disk_check (.ok gb)).status = .PASS ↔ 100 ≤ gb) ∧
    ((disk_check (.ok gb)).status = .WARNING ↔ 50 ≤ gb ∧ gb < 100) ∧
    ((disk_check (.ok gb)).status = .FAIL ↔ gb < 50) ∧
    disk_check (.ok 40) =
      { name := "Disk Space", status := .FAIL,
        message := "40.0 GB free (< 50 GB minimum)", details := none, required := true } ∧
    "40.0 GB".data <:+: "40.0 GB free (< 50 GB minimum)".data ∧
    "< 50 GB".data <:+: "40.0 GB free (< 50 GB minimum)".data := by
  unfold memory_check disk_check
  dsimp only
  refine ⟨?_, ?_, ?_, ?_, ?_, ?_, ?_, ?_, ?_⟩
  · split_ifs with h1 h2 <;> simp_all
  · split_ifs with h1 h2
    · constructor
      · intro h
        simp at h
      · rintro ⟨h8, h16⟩
        exact absurd h1 (not_le.mpr h16)
    · exact ⟨fun _ => ⟨h2, not_le.mp h1⟩, fun _ => rfl⟩
    · constructor
      · intro h
        simp at h
      · rintro ⟨h8, h16⟩
        exact absurd h8 h2
  · split_ifs with h1 h2 <;> simp_all
    linarith
  · split_ifs with h1 h2 <;> simp_all
  · split_ifs with h1 h2
    · constructor
      · intro h
        simp at h
      · rintro ⟨h50, h100⟩
        exact absurd h1 (not_le.mpr h100)
    · exact ⟨fun _ => ⟨h2, not_le.mp h1⟩, fun _ => rfl⟩
    · constructor
      · intro h
        simp at h
      · rintro ⟨h50, h100⟩
        exact absurd h50 h2
  · split_ifs with h1 h2 <;> simp_all
    linarith
  · decide
  · decide
  · decide

/-! ### Totality of the check battery

Every version string the script ever feeds to the semantic comparator
comes out of its own extraction regexes, whose outputs always parse;
hence no check raises and every run completes. -/

theorem ok_bind {α β : Type} (a : α) (f : α → Except String β) :
    (Except.ok a >>= f : Except String β) = f a := rfl

theorem pure_eq_ok {α : Type} (a : α) : (pure a : Except String α) = Except.ok a := rfl

theorem splitOnDot_append_digits (ds : List Char) (h : ∀ c ∈ ds, c.isDigit = true)
    (rest : List Char) :
    splitOnDot (ds ++ '.' :: rest) = ds :: splitOnDot rest := by
  induction ds with
  | nil => simp [splitOnDot]
  | cons c ds ih =>
    have hc : c.isDigit = true := h c (List.mem_cons_self c ds)
    have hcd : ¬ c = '.' := by
      intro he
      subst he
      exact absurd hc (by decide)
    have hrest := ih (fun x hx => h x (List.mem_cons_of_mem c hx))
    simp only [List.cons_append, splitOnDot, if_neg hcd, List.append_eq]
    rw [hrest]

theorem splitOnDot_digits_only (ds : List Char) (h : ∀ c ∈ ds, c.isDigit = true)
    (hne : ds ≠ []) : splitOnDot ds = [ds] := by
  induction ds with
  | nil => exact absurd rfl hne
  | cons c ds ih =>
    have hc : c.isDigit = true := h c (List.mem_cons_self c ds)
    have hcd : ¬ c = '.' := by
      intro he
      subst he
      exact absurd hc (by decide)
    simp only [splitOnDot, if_neg hcd]
    by_cases hds : ds = []
    · subst hds
      simp [splitOnDot]
    · rw [ih (fun x hx => h x (List.mem_cons_of_mem c hx)) hds]

theorem versionParse_mk_digits (ds : List Char) (h : ∀ c ∈ ds, c.isDigit = true)
    (hne : ds ≠ []) : versionParse ⟨ds⟩ = some [natOfDigits ds] := by
  obtain ⟨c, ds', rfl⟩ : ∃ c ds', ds = c :: ds' := by
    cases ds with
    | nil => exact absurd rfl hne
    | cons c t => exact ⟨c, t, rfl⟩
  have hc : c.isDigit = true := h c (List.mem_cons_self c ds')
  unfold versionParse
  split
  · rename_i heq
    rw [show (String.mk (c :: ds')).data = c :: ds' from rfl] at heq
    cases heq
    exact absurd hc (by decide)
  · rename_i heq
    rw [show (String.mk (c :: ds')).data = c :: ds' from rfl] at heq
    cases heq
    exact absurd hc (by decide)
  · rw [show (String.mk (c :: ds')).data = c :: ds' from rfl]
    dsimp only
    rw [splitOnDot_digits_only (c :: ds') h hne]
    rw [if_pos ?_]
    · rfl
    · simp only [List.all_cons, List.all_nil, Bool.and_true]
      refine (Bool.and_eq_true _ _).mpr ⟨by simp, ?_⟩
      exact List.all_eq_true.mpr h

theorem versionParse_mk_dotted2 (d1 d2 : List Char)
    (h1 : ∀ c ∈ d1, c.isDigit = true) (h2 : ∀ c ∈ d2, c.isDigit = true)
    (n1 : d1 ≠ []) (n2 : d2 ≠ []) :
    versionParse ⟨d1 ++ '.' :: d2⟩ = some [natOfDigits d1, natOfDigits d2] := by
  obtain ⟨c, d1', rfl⟩ : ∃ c d1', d1 = c :: d1' := by
    cases d1 with
    | nil => exact absurd rfl n1
    | cons c t => exact ⟨c, t, rfl⟩
  have hc : c.isDigit = true := h1 c (List.mem_cons_self c d1')
  unfold versionParse
  split
  · rename_i heq
    rw [show (String.mk ((c :: d1') ++ '.' :: d2)).data = c :: (d1' ++ '.' :: d2) from rfl] at heq
    cases heq
    exact absurd hc (by decide)
  · rename_i heq
    rw [show (String.mk ((c :: d1') ++ '.' :: d2)).data = c :: (d1' ++ '.' :: d2) from rfl] at heq
    cases heq
    exact absurd hc (by decide)
  · rw [show (String.mk ((c :: d1') ++ '.' :: d2)).data = (c :: d1') ++ '.' :: d2 from rfl]
    dsimp only
    rw [splitOnDot_append_digits (c :: d1') h1 d2]
    rw [splitOnDot_digits_only d2 h2 n2]
    rw [if_pos ?_]
    · rfl
    · simp only [List.all_cons, List.all_nil, Bool.and_true]
      refine (Bool.and_eq_true _ _).mpr ⟨?_, ?_⟩
      · refine (Bool.and_eq_true _ _).mpr ⟨by simp, List.all_eq_true.mpr h1⟩
      · refine (Bool.and_eq_true _ _).mpr ⟨by simpa using n2, List.all_eq_true.mpr h2⟩

theorem versionParse_mk_dotted3 (d1 d2 d3 : List Char)
    (h1 : ∀ c ∈ d1, c.isDigit = true) (h2 : ∀ c ∈ d2, c.isDigit = true)
    (h3 : ∀ c ∈ d3, c.isDigit = true)
    (n1 : d1 ≠ []) (n2 : d2 ≠ []) (n3 : d3 ≠ []) :
    versionParse ⟨d1 ++ '.' :: d2 ++ '.' :: d3⟩ =
      some [natOfDigits d1, natOfDigits d2, natOfDigits d3] := by
  have hshape : (d1 ++ '.' :: d2 ++ '.' :: d3) = d1 ++ '.' :: (d2 ++ '.' :: d3) := by
    rw [List.append_assoc]
    rfl
  rw [hshape]
  obtain ⟨c, d1', rfl⟩ : ∃ c d1', d1 = c :: d1' := by
    cases d1 with
    | nil => exact absurd rfl n1
    | cons c t => exact ⟨c, t, rfl⟩
  have hc : c.isDigit = true := h1 c (List.mem_cons_self c d1')
  unfold versionParse
  split
  · rename_i heq
    rw [show (String.mk ((c :: d1') ++ '.' :: (d2 ++ '.' :: d3))).data
          = c :: (d1' ++ '.' :: (d2 ++ '.' :: d3)) from rfl] at heq
    cases heq
    exact absurd hc (by decide)
  · rename_i heq
    rw [show (String.mk ((c :: d1') ++ '.' :: (d2 ++ '.' :: d3))).data
          = c :: (d1' ++ '.' :: (d2 ++ '.' :: d3)) from rfl] at heq
    cases heq
    exact absurd hc (by decide)
  · rw [show (String.mk ((c :: d1') ++ '.' :: (d2 ++ '.' :: d3))).data
          = (c :: d1') ++ '.' :: (d2 ++ '.' :: d3) from rfl]
    dsimp only
    rw [splitOnDot_append_digits (c :: d1') h1 (d2 ++ '.' :: d3)]
    rw [splitOnDot_append_digits d2 h2 d3]
    rw [splitOnDot_digits_only d3 h3 n3]
    rw [if_pos ?_]
    · rfl
    · simp only [List.all_cons, List.all_nil, Bool.and_true]
      refine (Bool.and_eq_true _ _).mpr ⟨?_, ?_⟩
      · refine (Bool.and_eq_true _ _).mpr ⟨by simp, List.all_eq_true.mpr h1⟩
      · refine (Bool.and_eq_true _ _).mpr ⟨?_, ?_⟩
        · refine (Bool.and_eq_true _ _).mpr ⟨by simpa using n2, List.all_eq_true.mpr h2⟩
        · refine (Bool.and_eq_true _ _).mpr ⟨by simpa using n3, List.all_eq_true.mpr h3⟩

theorem ne_nil_of_not_isEmpty {α : Type} {l : List α} (h : ¬ l.isEmpty = true) :
    l ≠ [] := by
  intro hl
  subst hl
  exact h rfl

theorem matchDottedAt_parses (cs m : List Char) (h : matchDottedAt cs = some m) :
    (versionParse ⟨m⟩).isSome = true := by
  unfold matchDottedAt at h
  dsimp only at h
  split at h
  · exact absurd h (by simp)
  · rename_i hne1
    split at h
    · rename_i r2 heq2
      split at h
      · exact absurd h (by simp)
      · rename_i hne2
        split at h
        · rename_i r3 heq3
          split at h
          · cases h
            rw [versionParse_mk_dotted2 _ _
                  (fun x hx => List.mem_takeWhile_imp hx)
                  (fun x hx => List.mem_takeWhile_imp hx)
                  (ne_nil_of_not_isEmpty hne1) (ne_nil_of_not_isEmpty hne2)]
            rfl
          · rename_i hne3
            cases h
            rw [versionParse_mk_dotted3 _ _ _
                  (fun x hx => List.mem_takeWhile_imp hx)
                  (fun x hx => List.mem_takeWhile_imp hx)
                  (fun x hx => List.mem_takeWhile_imp hx)
                  (ne_nil_of_not_isEmpty hne1) (ne_nil_of_not_isEmpty hne2)
                  (ne_nil_of_not_isEmpty hne3)]
            rfl
        · cases h
          rw [versionParse_mk_dotted2 _ _
                (fun x hx => List.mem_takeWhile_imp hx)
                (fun x hx => List.mem_takeWhile_imp hx)
                (ne_nil_of_not_isEmpty hne1) (ne_nil_of_not_isEmpty hne2)]
          rfl
    · exact absurd h (by simp)

theorem searchDotted_parses (cs m : List Char) (h : searchDotted cs = some m) :
    (versionParse ⟨m⟩).isSome = true := by
  induction cs with
  | nil => simp [searchDotted] at h
  | cons c rest ih =>
    unfold searchDotted at h
    cases hm : matchDottedAt (c :: rest) with
    | some m2 =>
      simp only [hm] at h
      cases h
      exact matchDottedAt_parses _ _ hm
    | none =>
      simp only [hm] at h
      exact ih h

theorem extractDefault_parses (s v : String) (h : extractDefault s = some v) :
    (versionParse v).isSome = true := by
  unfold extractDefault at h
  cases hm : searchDotted s.data with
  | none => simp [hm] at h
  | some m =>
    simp only [hm, Option.map_some] at h
    cases h
    exact searchDotted_parses _ _ hm

theorem javaPatternAux_parses (cs : List Char) (v : String)
    (h : javaPatternAux cs = some v) : (versionParse v).isSome = true := by
  induction cs with
  | nil => simp [javaPatternAux] at h
  | cons c rest ih =>
    unfold javaPatternAux at h
    cases hd : dropLit "version \"".data (c :: rest) with
    | none =>
      simp only [hd] at h
      exact ih h
    | some after =>
      simp only [hd] at h
      by_cases he : (after.takeWhile Char.isDigit).isEmpty = true
      · rw [if_pos he] at h
        exact ih h
      · rw [if_neg he] at h
        cases h
        rw [versionParse_mk_digits _ (fun x hx => List.mem_takeWhile_imp hx)
              (ne_nil_of_not_isEmpty he)]
        rfl

theorem javaPattern_parses (s v : String) (h : javaPattern s = some v) :
    (versionParse v).isSome = true :=
  javaPatternAux_parses s.data v h

theorem compareStage_ok (t c m : String) (pa : Bool)
    (hc : (versionParse c).isSome = true) (hm : (versionParse m).isSome = true) :
    ∃ r, compareStage t c m pa = Except.ok r := by
  unfold compareStage
  cases pa with
  | false =>
    cases hlex : lexCharLe m.data c.data <;> exact ⟨_, rfl⟩
  | true =>
    obtain ⟨cv, hcv⟩ := Option.isSome_iff_exists.mp hc
    obtain ⟨mv, hmv⟩ := Option.isSome_iff_exists.mp hm
    rw [hcv, hmv]
    dsimp only
    cases hrel : releaseLe mv cv <;> exact ⟨_, rfl⟩

theorem check_version_ok (onPath : Bool) (outcome : CmdOutcome) (pa : Bool)
    (cmd minV : String) (pat : Option (String → Option String))
    (hpat : pat = none ∨ pat = some javaPattern)
    (hmin : (versionParse minV).isSome = true) :
    ∃ r, check_version onPath outcome pa cmd minV pat = Except.ok r := by
  unfold check_version
  cases onPath with
  | false => exact ⟨_, rfl⟩
  | true =>
    dsimp only
    by_cases hec : (run_command outcome).1 ≠ 0
    · rw [if_pos hec]
      exact ⟨_, rfl⟩
    · rw [if_neg hec]
      rcases hpat with rfl | rfl
      · cases hx : extractDefault ((run_command outcome).2.1 ++ (run_command outcome).2.2) with
        | none => exact ⟨_, rfl⟩
        | some v =>
          obtain ⟨r, hr⟩ := compareStage_ok (firstWord cmd) v minV pa
            (extractDefault_parses _ _ hx) hmin
          exact ⟨r, hr⟩
      · dsimp only
        cases hx : javaPattern ((run_command outcome).2.1 ++ (run_command outcome).2.2) with
        | none => exact ⟨_, rfl⟩
        | some v =>
          obtain ⟨r, hr⟩ := compareStage_ok (firstWord cmd) v minV pa
            (javaPattern_parses _ _ hx) hmin
          exact ⟨r, hr⟩

theorem check_version_env_ok (env : Env) (cmd minV : String)
    (pat : Option (String → Option String))
    (hpat : pat = none ∨ pat = some javaPattern)
    (hmin : (versionParse minV).isSome = true) :
    ∃ r, check_version_env env cmd minV pat = Except.ok r :=
  check_version_ok _ _ _ _ _ _ hpat hmin

theorem check_core_tools_ok (env : Env) :
    ∃ res, check_core_tools env = Except.ok res := by
  obtain ⟨git, hg⟩ := check_version_env_ok env "git --version" "2.40" none
    (Or.inl rfl) (by decide)
  obtain ⟨docker, hd⟩ := check_version_env_ok env "docker --version" "24.0" none
    (Or.inl rfl) (by decide)
  obtain ⟨dc1, hdc1⟩ := check_version_env_ok env "docker compose version" "2.20" none
    (Or.inl rfl) (by decide)
  unfold check_core_tools
  rw [hg, ok_bind, hd, ok_bind, hdc1, ok_bind]
  by_cases hf : dc1.status = ValidationStatus.FAIL
  · rw [if_pos hf]
    obtain ⟨dc2, hdc2⟩ := check_version_env_ok env "docker-compose --version" "2.20" none
      (Or.inl rfl) (by decide)
    rw [hdc2, ok_bind]
    exact ⟨_, rfl⟩
  · rw [if_neg hf]
    exact ⟨_, rfl⟩

theorem check_programming_languages_ok (env : Env) :
    ∃ res, check_programming_languages env = Except.ok res := by
  obtain ⟨py3, h3⟩ := check_version_env_ok env "python3 --version" "3.12" none
    (Or.inl rfl) (by decide)
  obtain ⟨py, hp⟩ := check_version_env_ok env "python --version" "3.12" none
    (Or.inl rfl) (by decide)
  obtain ⟨java, hj⟩ := check_version_env_ok env "java -version" "21" (some javaPattern)
    (Or.inr rfl) (by decide)
  obtain ⟨node, hn⟩ := check_version_env_ok env "node --version" "18.0" none
    (Or.inl rfl) (by decide)
  unfold check_programming_languages
  rw [h3, ok_bind, hp, ok_bind, hj, ok_bind, hn, ok_bind]
  exact ⟨_, rfl⟩

theorem check_package_managers_ok (env : Env) :
    ∃ res, check_package_managers env = Except.ok res := by
  obtain ⟨poetry, h1⟩ := check_version_env_ok env "poetry --version" "1.7" none
    (Or.inl rfl) (by decide)
  obtain ⟨mvn, h2⟩ := check_version_env_ok env "mvn --version" "3.9" none
    (Or.inl rfl) (by decide)
  obtain ⟨npm, h3⟩ := check_version_env_ok env "npm --version" "9.0" none
    (Or.inl rfl) (by decide)
  unfold check_package_managers
  rw [h1, ok_bind, h2, ok_bind, h3, ok_bind]
  exact ⟨_, rfl⟩

theorem check_ide_tools_ok (env : Env) :
    ∃ res, check_ide_tools env = Except.ok res := by
  obtain ⟨r, hr⟩ := check_version_env_ok env "code --version" "1.80" none
    (Or.inl rfl) (by decide)
  unfold check_ide_tools
  rw [hr, ok_bind]
  exact ⟨_, rfl⟩

/-- The whole check battery never raises: every run completes with a
full category/result list. -/
theorem run_all_checks_ok (env : Env) :
    ∃ checks, run_all_checks env = Except.ok checks := by
  obtain ⟨core, hcore⟩ := check_core_tools_ok env
  obtain ⟨langs, hlangs⟩ := check_programming_languages_ok env
  obtain ⟨pkgs, hpkgs⟩ := check_package_managers_ok env
  obtain ⟨ide, hide⟩ := check_ide_tools_ok env
  unfold run_all_checks
  dsimp only
  rw [hcore, ok_bind, hlangs, ok_bind, hpkgs, ok_bind, hide, ok_bind]
  exact ⟨_, rfl⟩

/-! ### C7 -/

/-- C7 counterexample: an error in the disk-space query is converted
to WARNING with `required = false` — neither FAIL (the check would
otherwise be required) nor INFO, contradicting the claimed uniform
FAIL-if-required / INFO-otherwise conversion. -/
theorem C7_counterexample :
    disk_check (.error "boom") =
      { name := "Disk Space", status := .WARNING,
        message := "Could not check disk space: boom", details := none,
        required := false } ∧
    ValidationStatus.WARNING ≠ ValidationStatus.FAIL ∧
    ValidationStatus.WARNING ≠ ValidationStatus.INFO := by
  refine ⟨rfl, by decide, by decide⟩

/-- C7 amended: an unexpected error during a single check is caught at
the site that guards it and converted into a non-required
ValidationResult whose status is site-specific — INFO for the memory
probe, the Docker memory parse and the port probes, but WARNING for
the disk query — not uniformly FAIL-if-required / INFO-otherwise; the
run loop itself is never aborted: every run completes with a result
list. -/
theorem C7_error_conversion :
    memory_check none =
      { name := "System Memory", status := .INFO,
        message := "Could not check (psutil not available)", details := none,
        required := false } ∧
    (∀ e, disk_check (.error e) =
      { name := "Disk Space", status := .WARNING,
        message := "Could not check disk space: " ++ e, details := none,
        required := false }) ∧
    (∀ port msg, port_check port (.raised msg) =
      { name := "Port " ++ toString port, status := .INFO,
        message := "Could not check: " ++ msg, details := none,
        required := false }) ∧
    docker_memory_results "Stuff\nTotal Memory: 1.2.3 GiB\n" =
      [{ name := "Docker Memory", status := .INFO,
         message := "Could not parse memory allocation", details := none,
         required := false }] ∧
    (∀ env : Env, ∃ checks, run_all_checks env = Except.ok checks) := by
  refine ⟨rfl, fun e => rfl, fun port msg => rfl, by decide, run_all_checks_ok⟩

/-! ### C1 -/

/-- C1: a run's exit code is 1 exactly when some required result has
status FAIL, and 0 otherwise (required warnings included); the exit
code is invariant under discarding all non-required results, so the
status of a non-required result never changes the overall outcome;
and the process exit code of every whole run obeys the same rule over
the run's collected results. -/
theorem C1_exit_code_iff_required_fail :
    (∀ rs : List ValidationResult,
      (exit_code rs = 1 ↔
        ∃ r ∈ rs, r.required = true ∧ r.status = ValidationStatus.FAIL) ∧
      (exit_code rs = 0 ↔
        ¬ ∃ r ∈ rs, r.required = true ∧ r.status = ValidationStatus.FAIL) ∧
      exit_code rs = exit_code (rs.filter (fun r => r.required))) ∧
    (∀ env : Env, ∃ checks, run_all_checks env = Except.ok checks ∧
      (main_exit env = 1 ↔ ∃ r ∈ allResults checks,
        r.required = true ∧ r.status = ValidationStatus.FAIL)) := by
  have base : ∀ rs : List ValidationResult,
      (exit_code rs = 1 ↔
        ∃ r ∈ rs, r.required = true ∧ r.status = ValidationStatus.FAIL) ∧
      (exit_code rs = 0 ↔
        ¬ ∃ r ∈ rs, r.required = true ∧ r.status = ValidationStatus.FAIL) ∧
      exit_code rs = exit_code (rs.filter (fun r => r.required)) := by
    intro rs
    rw [exit_code_eq, exit_code_eq, required_failed_filter, ← required_failed_pos_iff]
    by_cases h : 0 < required_failed rs <;> simp [h]
  refine ⟨base, fun env => ?_⟩
  obtain ⟨checks, hc⟩ := run_all_checks_ok env
  refine ⟨checks, hc, ?_⟩
  have hm : main_exit env = exit_code (allResults checks) := by
    unfold main_exit
    rw [hc]
  rw [hm]
  exact (base (allResults checks)).1

/-! ### The INFO ⇒ non-required invariant -/

theorem exceptBind_ok {α β : Type} {x : Except String α} {f : α → Except String β}
    {b : β} (h : (x >>= f) = Except.ok b) :
    ∃ a, x = Except.ok a ∧ f a = Except.ok b := by
  cases x with
  | error e =>
    rw [show (Except.error e >>= f : Except String β) = Except.error e from rfl] at h
    exact Except.noConfusion h
  | ok a =>
    rw [show (Except.ok a >>= f : Except String β) = f a from rfl] at h
    exact ⟨a, rfl, h⟩

theorem compareStage_not_info (t c m : String) (pa : Bool) (r : ValidationResult)
    (h : compareStage t c m pa = Except.ok r) :
    r.status ≠ ValidationStatus.INFO := by
  unfold compareStage at h
  split at h
  · split at h
    · split at h <;> (cases h; simp)
    · exact Except.noConfusion h
  · split at h <;> (cases h; simp)

theorem check_version_not_info (onPath : Bool) (outcome : CmdOutcome) (pa : Bool)
    (cmd minV : String) (pat : Option (String → Option String)) (r : ValidationResult)
    (h : check_version onPath outcome pa cmd minV pat = Except.ok r) :
    r.status ≠ ValidationStatus.INFO := by
  unfold check_version at h
  dsimp only at h
  split at h
  · cases h; simp
  · split at h
    · cases h; simp
    · split at h
      · cases h; simp
      · exact compareStage_not_info _ _ _ _ _ h

theorem check_version_env_not_info (env : Env) (cmd minV : String)
    (pat : Option (String → Option String)) (r : ValidationResult)
    (h : check_version_env env cmd minV pat = Except.ok r) :
    r.status ≠ ValidationStatus.INFO :=
  check_version_not_info _ _ _ _ _ _ _ h

theorem sysreq_info (env : Env) (r : ValidationResult)
    (hr : r ∈ check_system_requirements env)
    (hi : r.status = ValidationStatus.INFO) : r.required = false := by
  simp only [check_system_requirements, List.mem_cons, List.mem_singleton,
    List.not_mem_nil, or_false] at hr
  rcases hr with rfl | rfl | rfl | rfl
  · unfold os_check at hi
    split at hi <;> simp at hi
  · unfold arch_check at hi
    dsimp only at hi
    split at hi <;> simp at hi
  · revert hi
    cases env.memGb with
    | none => intro hi; rfl
    | some gb =>
      intro hi
      unfold memory_check at hi
      dsimp only at hi
      split_ifs at hi
  · revert hi
    cases env.diskGb with
    | error e => intro hi; rfl
    | ok gb =>
      intro hi
      unfold disk_check at hi
      dsimp only at hi
      split_ifs at hi

theorem docker_memory_info (stdout : String) (r : ValidationResult)
    (hr : r ∈ docker_memory_results stdout)
    (hi : r.status = ValidationStatus.INFO) : r.required = false := by
  unfold docker_memory_results at hr
  dsimp only at hr
  split at hr
  · split at hr
    · split at hr
      · split_ifs at hr <;>
          (simp only [List.mem_singleton] at hr; subst hr; simp at hi)
      · simp only [List.mem_singleton] at hr
        subst hr
        rfl
    · exact absurd hr (List.not_mem_nil r)
  · exact absurd hr (List.not_mem_nil r)

theorem docker_info (env : Env) (r : ValidationResult)
    (hr : r ∈ check_docker_configuration env)
    (hi : r.status = ValidationStatus.INFO) : r.required = false := by
  unfold check_docker_configuration at hr
  dsimp only at hr
  split at hr
  · rcases List.mem_cons.mp hr with rfl | hr2
    · simp at hi
    · exact docker_memory_info _ _ hr2 hi
  · simp only [List.mem_singleton] at hr
    subst hr
    simp at hi

theorem ports_info (env : Env) (r : ValidationResult)
    (hr : r ∈ check_network_ports env)
    (hi : r.status = ValidationStatus.INFO) : r.required = false := by
  unfold check_network_ports at hr
  rw [List.mem_map] at hr
  obtain ⟨port, hport, rfl⟩ := hr
  unfold port_check
  cases env.portProbe port with
  | connectResult code =>
    dsimp only
    split_ifs <;> rfl
  | raised msg => rfl

theorem core_info (env : Env) (res : List ValidationResult)
    (h : check_core_tools env = Except.ok res) (r : ValidationResult)
    (hr : r ∈ res) (hi : r.status = ValidationStatus.INFO) : r.required = false := by
  unfold check_core_tools at h
  obtain ⟨git, hg, h⟩ := exceptBind_ok h
  obtain ⟨docker, hd, h⟩ := exceptBind_ok h
  obtain ⟨dc1, hdc1, h⟩ := exceptBind_ok h
  dsimp only at h
  by_cases hf : dc1.status = ValidationStatus.FAIL
  · rw [if_pos hf] at h
    obtain ⟨dc, hdc, h⟩ := exceptBind_ok h
    rw [pure_eq_ok] at h
    cases h
    simp only [List.mem_cons, List.not_mem_nil, or_false] at hr
    rcases hr with rfl | rfl | rfl
    · exact absurd hi (check_version_env_not_info _ _ _ _ _ hg)
    · exact absurd hi (check_version_env_not_info _ _ _ _ _ hd)
    · exact absurd hi (check_version_env_not_info _ _ _ _ _ hdc)
  · rw [if_neg hf, pure_eq_ok, ok_bind, pure_eq_ok] at h
    cases h
    simp only [List.mem_cons, List.not_mem_nil, or_false] at hr
    rcases hr with rfl | rfl | rfl
    · exact absurd hi (check_version_env_not_info _ _ _ _ _ hg)
    · exact absurd hi (check_version_env_not_info _ _ _ _ _ hd)
    · exact absurd hi (check_version_env_not_info _ _ _ _ _ hdc1)

theorem langs_info (env : Env) (res : List ValidationResult)
    (h : check_programming_languages env = Except.ok res) (r : ValidationResult)
    (hr : r ∈ res) (hi : r.status = ValidationStatus.INFO) : r.required = false := by
  unfold check_programming_languages at h
  obtain ⟨py3, h3, h⟩ := exceptBind_ok h
  obtain ⟨py, hp, h⟩ := exceptBind_ok h
  obtain ⟨java, hj, h⟩ := exceptBind_ok h
  obtain ⟨node, hn, h⟩ := exceptBind_ok h
  rw [pure_eq_ok] at h
  cases h
  simp only [List.mem_append, List.mem_cons, List.not_mem_nil, or_false,
    List.mem_singleton] at hr
  rcases hr with (rfl | hr2) | rfl | rfl
  · exact absurd hi (check_version_env_not_info _ _ _ _ _ h3)
  · by_cases hpass : py.status = ValidationStatus.PASS
    · rw [if_pos hpass] at hr2
      simp only [List.mem_singleton] at hr2
      subst hr2
      simp at hi
    · rw [if_neg hpass] at hr2
      exact absurd hr2 (List.not_mem_nil r)
  · exact absurd hi (check_version_env_not_info _ _ _ _ _ hj)
  · exact absurd hi (check_version_env_not_info _ _ _ _ _ hn)

theorem pkgs_info (env : Env) (res : List ValidationResult)
    (h : check_package_managers env = Except.ok res) (r : ValidationResult)
    (hr : r ∈ res) (hi : r.status = ValidationStatus.INFO) : r.required = false := by
  unfold check_package_managers at h
  obtain ⟨poetry, h1, h⟩ := exceptBind_ok h
  obtain ⟨mvn, h2, h⟩ := exceptBind_ok h
  obtain ⟨npm, h3, h⟩ := exceptBind_ok h
  rw [pure_eq_ok] at h
  cases h
  simp only [List.mem_cons, List.not_mem_nil, or_false] at hr
  rcases hr with rfl | rfl | rfl
  · exact absurd hi (check_version_env_not_info _ _ _ _ _ h1)
  · exact absurd hi (check_version_env_not_info _ _ _ _ _ h2)
  · exact absurd hi (check_version_env_not_info _ _ _ _ _ h3)

theorem ide_info (env : Env) (res : List ValidationResult)
    (h : check_ide_tools env = Except.ok res) (r : ValidationResult)
    (hr : r ∈ res) : r.required = false := by
  unfold check_ide_tools at h
  obtain ⟨r0, h0, h⟩ := exceptBind_ok h
  rw [pure_eq_ok] at h
  cases h
  simp only [List.mem_singleton] at hr
  subst hr
  rfl

/-! ### C10 -/

/-- C10: across a whole run, every ValidationResult whose status is
INFO carries `required = false`, so INFO results never enter the
required-only summary and can never affect the overall outcome. -/
theorem C10_info_implies_not_required (env : Env)
    (checks : List (String × List ValidationResult))
    (h : run_all_checks env = Except.ok checks) :
    ∀ r ∈ allResults checks,
      r.status = ValidationStatus.INFO → r.required = false := by
  unfold run_all_checks at h
  dsimp only at h
  obtain ⟨core, hcore, h⟩ := exceptBind_ok h
  obtain ⟨langs, hlangs, h⟩ := exceptBind_ok h
  obtain ⟨pkgs, hpkgs, h⟩ := exceptBind_ok h
  obtain ⟨ide, hide, h⟩ := exceptBind_ok h
  rw [pure_eq_ok] at h
  cases h
  intro r hr hi
  unfold allResults at hr
  simp only [List.map_cons, List.map_nil, List.flatten_cons, List.flatten_nil,
    List.append_nil, List.mem_append] at hr
  rcases hr with hr | hr | hr | hr | hr | hr | hr
  · exact sysreq_info env r hr hi
  · exact core_info env core hcore r hr hi
  · exact langs_info env langs hlangs r hr hi
  · exact pkgs_info env pkgs hpkgs r hr hi
  · exact docker_info env r hr hi
  · exact ports_info env r hr hi
  · exact ide_info env ide hide r hr

theorem C10_witness :
    ({ name := "System Memory", status := ValidationStatus.INFO,
       message := "Could not check (psutil not available)", details := none,
       required := false } : ValidationResult).required = false :=
  C10_info_implies_not_required envNoPsutil envNoPsutilChecks (by rfl) _
    (by decide) rfl

end Defender360
